import Mathlib

/-!
Verification of the AI-SENSE billing / physics / forecasting core.

Shallow embedding of `src/core/billing_engine.py`, `src/core/physics_engine.py`,
`src/core/energy_math.py`, `src/core/forecasting_engine.py` and the helper
`calculate_energy` of `src/energysense_advanced_ai.py`.  Python floats are
modelled by exact rationals (ℚ); Python exceptions are modelled by
`Except String`.
-/

namespace AISense

/-! ### Data model (`billing_engine.py`, lines 9-28) -/

/-- `TariffTier` dataclass: `max_kwh` is `None` for the unlimited top tier. -/
structure TariffTier where
  max_kwh : Option ℚ
  rate_per_kwh : ℚ
  description : String
deriving Repr, DecidableEq

/-- `RegionalBilling` dataclass: complete regional billing configuration. -/
structure RegionalBilling where
  country : String
  currency : String
  currency_symbol : String
  tariff_type : String
  base_rate : ℚ
  fixed_charge : ℚ
  tax_rate : ℚ
  tiers : Option (List TariffTier)
  peak_hours : Option (List ℕ)
  peak_multiplier : ℚ
deriving Repr, DecidableEq

/-! ### Built-in regional configurations (`BillingEngine.__init__`, lines 33-88).
Fields not set in the Python constructor keep the dataclass defaults
(`tiers=None`, `peak_hours=None`, `peak_multiplier=1.5`). -/

def nigeriaConfig : RegionalBilling :=
  { country := "Nigeria", currency := "NGN", currency_symbol := "₦"
    tariff_type := "tiered", base_rate := 68, fixed_charge := 1000
    tax_rate := 3/40
    tiers := some [
      ⟨some 50, 30, "Lifeline tariff"⟩,
      ⟨some 100, 50, "Residential R1"⟩,
      ⟨some 300, 68, "Residential R2"⟩,
      ⟨none, 85, "Residential R3"⟩]
    peak_hours := none, peak_multiplier := 3/2 }

def usaConfig : RegionalBilling :=
  { country := "USA", currency := "USD", currency_symbol := "$"
    tariff_type := "tiered", base_rate := 3/20, fixed_charge := 10
    tax_rate := 2/25
    tiers := some [
      ⟨some 300, 3/25, "Baseline"⟩,
      ⟨some 600, 3/20, "Tier 1"⟩,
      ⟨none, 1/4, "Tier 2"⟩]
    peak_hours := none, peak_multiplier := 3/2 }

def ukConfig : RegionalBilling :=
  { country := "UK", currency := "GBP", currency_symbol := "£"
    tariff_type := "flat", base_rate := 7/25, fixed_charge := 25
    tax_rate := 1/20
    tiers := none, peak_hours := none, peak_multiplier := 3/2 }

def indiaConfig : RegionalBilling :=
  { country := "India", currency := "INR", currency_symbol := "₹"
    tariff_type := "tiered", base_rate := 6, fixed_charge := 50
    tax_rate := 3/25
    tiers := some [
      ⟨some 100, 3, "Domestic LT-1A"⟩,
      ⟨some 200, 9/2, "Domestic LT-1B"⟩,
      ⟨some 300, 6, "Domestic LT-1C"⟩,
      ⟨none, 15/2, "Domestic LT-1D"⟩]
    peak_hours := none, peak_multiplier := 3/2 }

/-- The `self.regional_configs` dictionary, as a lookup function
(`dict.get` semantics: `none` for an unknown key). -/
def regional_configs (country : String) : Option RegionalBilling :=
  if country = "Nigeria" then some nigeriaConfig
  else if country = "USA" then some usaConfig
  else if country = "UK" then some ukConfig
  else if country = "India" then some indiaConfig
  else none

/-! ### Bill results.  The Python functions return dictionaries; we model the
union of their numeric keys in one record (keys a given tariff function does
not produce are set to their neutral values and never read by the claims). -/

/-- One entry of the `tier_breakdown` list. -/
structure TierLine where
  tier : String
  energy_kwh : ℚ
  rate : ℚ
  cost : ℚ
deriving Repr, DecidableEq

/-- Numeric fields of the billing-result dictionaries. -/
structure BillDetails where
  energy_cost : ℚ
  fixed_charge : ℚ
  subtotal : ℚ
  tax_amount : ℚ
  total_bill : ℚ
  effective_rate : ℚ
  tier_breakdown : List TierLine
  peak_energy : ℚ
  off_peak_energy : ℚ
  peak_cost : ℚ
  off_peak_cost : ℚ
deriving Repr, DecidableEq

/-- `BillingEngine.calculate_flat_tariff` (lines 90-109). -/
def calculate_flat_tariff (energy_kwh : ℚ) (config : RegionalBilling) : BillDetails :=
  let energy_cost := energy_kwh * config.base_rate
  let subtotal := energy_cost + config.fixed_charge
  let tax_amount := subtotal * config.tax_rate
  let total_bill := subtotal + tax_amount
  { energy_cost := energy_cost
    fixed_charge := config.fixed_charge
    subtotal := subtotal
    tax_amount := tax_amount
    total_bill := total_bill
    effective_rate := if energy_kwh > 0 then total_bill / energy_kwh else 0
    tier_breakdown := []
    peak_energy := 0, off_peak_energy := 0, peak_cost := 0, off_peak_cost := 0 }

/-- The `for tier in config.tiers` loop of `calculate_tiered_tariff`
(lines 126-151), accumulating `energy_cost` and `tier_breakdown`.
The loop breaks as soon as `energy_remaining <= 0`; after a bounded tier
the remaining energy is clamped at 0 (line 151). -/
def tieredLoop : List TariffTier → ℚ → ℚ × List TierLine
  | [], _ => (0, [])
  | t :: rest, energy_remaining =>
    if energy_remaining ≤ 0 then (0, [])
    else
      let tier_energy :=
        match t.max_kwh with
        | none => energy_remaining
        | some m => min energy_remaining m
      let tier_cost := tier_energy * t.rate_per_kwh
      let next :=
        match t.max_kwh with
        | none => energy_remaining - tier_energy
        | some _ => max 0 (energy_remaining - tier_energy)
      let r := tieredLoop rest next
      (tier_cost + r.1, ⟨t.description, tier_energy, t.rate_per_kwh, tier_cost⟩ :: r.2)

/-- `BillingEngine.calculate_tiered_tariff` (lines 111-165).
`if not config.tiers` is true in Python both for `None` and for `[]`. -/
def calculate_tiered_tariff (energy_kwh : ℚ) (config : RegionalBilling) : BillDetails :=
  match config.tiers with
  | none => calculate_flat_tariff energy_kwh config
  | some ts =>
    if ts = [] then calculate_flat_tariff energy_kwh config
    else
      let r := tieredLoop ts energy_kwh
      let energy_cost := r.1
      let subtotal := energy_cost + config.fixed_charge
      let tax_amount := subtotal * config.tax_rate
      let total_bill := subtotal + tax_amount
      { energy_cost := energy_cost
        fixed_charge := config.fixed_charge
        subtotal := subtotal
        tax_amount := tax_amount
        total_bill := total_bill
        effective_rate := if energy_kwh > 0 then total_bill / energy_kwh else 0
        tier_breakdown := r.2
        peak_energy := 0, off_peak_energy := 0, peak_cost := 0, off_peak_cost := 0 }

/-- `BillingEngine.calculate_time_of_use_tariff` (lines 167-201). -/
def calculate_time_of_use_tariff (energy_kwh peak_percentage : ℚ)
    (config : RegionalBilling) : BillDetails :=
  let peak_energy := energy_kwh * peak_percentage
  let off_peak_energy := energy_kwh * (1 - peak_percentage)
  let peak_rate := config.base_rate * config.peak_multiplier
  let off_peak_rate := config.base_rate
  let peak_cost := peak_energy * peak_rate
  let off_peak_cost := off_peak_energy * off_peak_rate
  let energy_cost := peak_cost + off_peak_cost
  let subtotal := energy_cost + config.fixed_charge
  let tax_amount := subtotal * config.tax_rate
  let total_bill := subtotal + tax_amount
  { energy_cost := energy_cost
    fixed_charge := config.fixed_charge
    subtotal := subtotal
    tax_amount := tax_amount
    total_bill := total_bill
    effective_rate := if energy_kwh > 0 then total_bill / energy_kwh else 0
    tier_breakdown := []
    peak_energy := peak_energy, off_peak_energy := off_peak_energy
    peak_cost := peak_cost, off_peak_cost := off_peak_cost }

/-- `BillingEngine.calculate_bill` (lines 203-244).  The metadata keys added
at lines 235-242 do not change the numeric fields modelled here. -/
def calculate_bill (energy_kwh : ℚ) (country : String) (peak_percentage : ℚ) :
    Except String BillDetails :=
  match regional_configs country with
  | none => Except.error ("Billing configuration not available for " ++ country)
  | some config =>
    if energy_kwh < 0 then Except.error "Energy consumption cannot be negative"
    else if config.tariff_type = "flat" then
      Except.ok (calculate_flat_tariff energy_kwh config)
    else if config.tariff_type = "tiered" then
      Except.ok (calculate_tiered_tariff energy_kwh config)
    else if config.tariff_type = "time_of_use" then
      Except.ok (calculate_time_of_use_tariff energy_kwh peak_percentage config)
    else Except.error ("Unknown tariff type: " ++ config.tariff_type)

/-! ### Physics (`physics_engine.py`, `energy_math.py`) -/

namespace energy_math

/-- `energy_math.device_energy` (lines 1-6): `E = (P × h × d × n) / 1000`. -/
def device_energy (power_w hours days quantity : ℚ) : ℚ :=
  (power_w * hours * days * quantity) / 1000

/-- `energy_math.temperature_adjustment` (lines 9-13):
`energy * (1 + alpha * (temperature - 22) / 22)`, with no range check. -/
def temperature_adjustment (energy temperature alpha : ℚ) : ℚ :=
  energy * (1 + alpha * (temperature - 22) / 22)

end energy_math

namespace PhysicsEngine

/-- `self.T_REF` (line 13). -/
def T_REF : ℚ := 22

/-- `PhysicsEngine.device_energy_basic` (lines 16-39): raises `ValueError`
unless `power_w > 0`, `hours >= 0`, `days > 0`, `quantity > 0`. -/
def device_energy_basic (power_w hours days quantity : ℚ) : Except String ℚ :=
  if power_w ≤ 0 ∨ hours < 0 ∨ days ≤ 0 ∨ quantity ≤ 0 then
    Except.error "All parameters must be positive"
  else
    let energy_wh := power_w * hours * days * quantity
    Except.ok (energy_wh / 1000)

/-- `PhysicsEngine.thermal_ode_model` (lines 41-76): linear thermal
correction, clamped below at `0.1` (line 72), with the temperature range
check of line 62. -/
def thermal_ode_model (energy_base temperature thermal_sensitivity : ℚ) :
    Except String ℚ :=
  if temperature < -50 ∨ temperature > 60 then
    Except.error "Temperature outside realistic range (-50°C to 60°C)"
  else
    let delta_t := temperature - T_REF
    let correction_factor := 1 + thermal_sensitivity * (delta_t / T_REF)
    let clamped := max (1/10) correction_factor
    Except.ok (energy_base * clamped)

end PhysicsEngine

/-- `calculate_energy` of `src/energysense_advanced_ai.py` (lines 428-429). -/
def calculate_energy (power hours days quantity : ℚ) : ℚ :=
  (power * hours * days * quantity) / 1000

/-! ### Forecasting (`forecasting_engine.py`).

Randomness (`np.random.normal`) and calendar dates (`pd.date_range`) are
modelled by explicit parameters: `rand i` is the random factor drawn for the
`i`-th synthetic row and `monthOf i` the calendar month (1-12) of its date.
The claims settled here do not depend on their values. -/

namespace ForecastingEngine

/-- `self.seasonal_patterns` (lines 34-47), monthly multipliers keyed 1-12.
A Python lookup with a key outside 1-12 would raise `KeyError`; the engine
only ever looks up months of real dates, which lie in 1-12. -/
def seasonal_patterns (month : ℕ) : ℚ :=
  if month = 1 then 23/20
  else if month = 2 then 11/10
  else if month = 3 then 21/20
  else if month = 4 then 19/20
  else if month = 5 then 1
  else if month = 6 then 6/5
  else if month = 7 then 5/4
  else if month = 8 then 5/4
  else if month = 9 then 23/20
  else if month = 10 then 1
  else if month = 11 then 21/20
  else if month = 12 then 11/10
  else 0

/-- One row of the synthetic-history DataFrame (the `date` column is
represented by the row index together with `month`). -/
structure HistoryRow where
  month : ℕ
  energy_kwh : ℚ
  seasonal_factor : ℚ
  trend_factor : ℚ
deriving Repr, DecidableEq

/-- `ForecastingEngine.generate_synthetic_history` (lines 49-90): one row per
generated date, with seasonal, trend and random factors and the
`base_energy * 0.5` minimum bound (line 80). -/
def generate_synthetic_history (base_energy : ℚ) (months : ℕ)
    (monthOf : ℕ → ℕ) (rand : ℕ → ℚ) : List HistoryRow :=
  (List.range months).map (fun i =>
    let month := monthOf i
    let seasonal_factor := seasonal_patterns month
    let trend_factor := 1 + (i : ℚ) * (1/100)
    let random_factor := rand i
    let energy := base_energy * seasonal_factor * trend_factor * random_factor
    let energy := max energy (base_energy * (1/2))
    ⟨month, energy, seasonal_factor, trend_factor⟩)

/-- The history built inside `ForecastingEngine.comprehensive_forecast`
(line 255): the call `self.generate_synthetic_history(current_energy, 12)`
always passes `months = 12`. -/
def comprehensive_history (current_energy : ℚ) (monthOf : ℕ → ℕ)
    (rand : ℕ → ℚ) : List HistoryRow :=
  generate_synthetic_history current_energy 12 monthOf rand

/-- `np.polyfit(x, ys, 1)[0]` with `x = 0, 1, ..., n-1` (lines 111-112): the
slope of the degree-1 least-squares fit, in closed form
`(n Σxy − Σx Σy) / (n Σx² − (Σx)²)`. -/
def polyfit1 (ys : List ℚ) : ℚ :=
  let n : ℚ := (ys.length : ℚ)
  let xs := (List.range ys.length).map (fun i => (i : ℚ))
  let sx := xs.sum
  let sy := ys.sum
  let sxy := ((xs.zip ys).map (fun p => p.1 * p.2)).sum
  let sxx := (xs.map (fun x => x * x)).sum
  (n * sxy - sx * sy) / (n * sxx - sx * sx)

/-- One entry of the `forecasts` list produced by `sarima_forecast`
(lines 149-156); `date` is represented by its calendar month. -/
structure Forecast where
  month : ℕ
  forecast_month : ℕ
  predicted_energy : ℚ
  confidence_lower : ℚ
  confidence_upper : ℚ
  seasonal_factor : ℚ
deriving Repr, DecidableEq

/-- The result dictionary of `sarima_forecast` (lines 158-163).  The
`seasonal_strength` key (a numpy standard deviation, hence an irrational
square root) is not used by any claim and is not modelled. -/
structure SarimaResult where
  forecasts : List Forecast
  trend_direction : String
  trend_coefficient : ℚ
deriving Repr, DecidableEq

/-- `monthly_averages[m]`: `historical_data.groupby('month')['energy_kwh'].mean()`
at month `m` (line 123), `none` when no row has that month. -/
def monthlyAverage (data : List HistoryRow) (m : ℕ) : Option ℚ :=
  let vs := (data.filter (fun r => r.month = m)).map (fun r => r.energy_kwh)
  if vs.isEmpty then none else some (vs.sum / (vs.length : ℚ))

/-- `ForecastingEngine.sarima_forecast` (lines 92-163).  `futureMonth i` is
the calendar month of the date `i` months after the last historical date. -/
def sarima_forecast (historical_data : List HistoryRow)
    (forecast_months : ℕ) (futureMonth : ℕ → ℕ) : Except String SarimaResult :=
  if historical_data.length < 6 then
    Except.error "Need at least 6 months of historical data"
  else
    let energy_values := historical_data.map (fun r => r.energy_kwh)
    let trend_coeff := polyfit1 energy_values
    let trend_direction :=
      if |trend_coeff| < 1/2 then "Stable"
      else if trend_coeff > 0 then "Increasing"
      else "Decreasing"
    let overall_average := energy_values.sum / (energy_values.length : ℚ)
    let last_value := energy_values.getLastD 0
    let forecasts := (List.range forecast_months).map (fun j =>
      let i := j + 1
      let forecast_month := futureMonth i
      let base_forecast := last_value + trend_coeff * (i : ℚ)
      let seasonal_adjustment :=
        match monthlyAverage historical_data forecast_month with
        | some avg => avg / overall_average
        | none => seasonal_patterns forecast_month
      let forecast_energy := base_forecast * seasonal_adjustment
      ⟨i, forecast_month, forecast_energy,
        forecast_energy * (17/20), forecast_energy * (23/20),
        seasonal_adjustment⟩)
    Except.ok ⟨forecasts, trend_direction, trend_coeff⟩

/-- The mutable ML state of `ForecastingEngine.__init__` (lines 28-31): the
`StandardScaler` transform and the trained `RandomForestRegressor` predictor
are opaque fitted functions, carried as fields. -/
structure MlState where
  is_trained : Bool
  scaler_transform : List ℚ → List ℚ
  ml_model_predict : List ℚ → ℚ

/-- The feature dictionary consumed by `ml_correction_layer`
(lines 181-188), with the `dict.get` defaults already applied. -/
structure MlFeatures where
  temperature : ℚ
  humidity : ℚ
  device_count : ℚ
  total_power : ℚ
  usage_hours : ℚ

/-- `ForecastingEngine.ml_correction_layer` (lines 165-199): returns the base
forecast when untrained, otherwise multiplies it by the model's predicted
correction factor clipped to `[0.5, 2.0]` (line 197,
`np.clip(c, 0.5, 2.0) = min 2 (max (1/2) c)`). -/
def ml_correction_layer (self : MlState) (base_forecast : ℚ)
    (features : MlFeatures) : ℚ :=
  if self.is_trained = false then base_forecast
  else
    let feature_vector := [base_forecast, features.temperature,
      features.humidity, features.device_count, features.total_power,
      features.usage_hours]
    let feature_vector_scaled := self.scaler_transform feature_vector
    let correction_factor := self.ml_model_predict feature_vector_scaled
    let clipped := min 2 (max (1/2) correction_factor)
    base_forecast * clipped

end ForecastingEngine

/-! ### Specification-side definitions (from the spec's words, for comparison
with the code-side definitions above) -/

/-- Spec-side reading of a tiered tariff as consecutive consumption brackets:
the first tier covers a bracket of width `max_kwh`, the next tier the bracket
of width its own `max_kwh` starting where the previous one ended, and an
unbounded tier covers everything above.  The energy falling inside each
bracket is charged at that tier's `rate_per_kwh`. -/
def bracketSplitCost : List TariffTier → ℚ → ℚ
  | [], _ => 0
  | t :: rest, e =>
    match t.max_kwh with
    | none => t.rate_per_kwh * max 0 e
    | some m => t.rate_per_kwh * min (max 0 e) m + bracketSplitCost rest (e - m)

/-- Well-formedness of a tier table: every bounded tier has a non-negative
`max_kwh`. -/
def tiersWf (ts : List TariffTier) : Prop :=
  ∀ t ∈ ts, ∀ m ∈ t.max_kwh, 0 ≤ m

/-- All per-unit rates of a tier table are non-negative. -/
def ratesNonneg (ts : List TariffTier) : Prop :=
  ∀ t ∈ ts, 0 ≤ t.rate_per_kwh

/-! ## Helper lemmas -/

lemma tieredLoop_fst_nonpos (ts : List TariffTier) (e : ℚ) (he : e ≤ 0) :
    (tieredLoop ts e).1 = 0 := by
  cases ts with
  | nil => rfl
  | cons t rest => simp [tieredLoop, if_pos he]

lemma tiersWf_of_cons {t : TariffTier} {rest : List TariffTier}
    (h : tiersWf (t :: rest)) : tiersWf rest :=
  fun u hu m hm => h u (List.mem_cons_of_mem _ hu) m hm

lemma ratesNonneg_of_cons {t : TariffTier} {rest : List TariffTier}
    (h : ratesNonneg (t :: rest)) : ratesNonneg rest :=
  fun u hu => h u (List.mem_cons_of_mem _ hu)

lemma bracketSplitCost_nonpos (ts : List TariffTier) :
    ∀ e : ℚ, tiersWf ts → e ≤ 0 → bracketSplitCost ts e = 0 := by
  induction ts with
  | nil => intro e _ _; rfl
  | cons t rest ih =>
    intro e hwf he
    cases hm : t.max_kwh with
    | none => simp [bracketSplitCost, hm, max_eq_left he]
    | some m =>
      have hm0 : 0 ≤ m := hwf t (List.mem_cons_self t rest) m hm
      have hrec : bracketSplitCost rest (e - m) = 0 :=
        ih (e - m) (tiersWf_of_cons hwf) (by linarith)
      simp [bracketSplitCost, hm, max_eq_left he, min_eq_left hm0, hrec]

/-- The `for` loop of `calculate_tiered_tariff` computes exactly the
bracket-splitting cost in which the tiers' `max_kwh` values are the bracket
widths. -/
lemma tieredLoop_fst_eq_bracketSplit (ts : List TariffTier) :
    ∀ e : ℚ, tiersWf ts → 0 ≤ e → (tieredLoop ts e).1 = bracketSplitCost ts e := by
  induction ts with
  | nil => intro e _ _; rfl
  | cons t rest ih =>
    intro e hwf he
    by_cases he0 : e ≤ 0
    · have he' : e = 0 := le_antisymm he0 he
      subst he'
      rw [tieredLoop_fst_nonpos _ 0 le_rfl,
        bracketSplitCost_nonpos _ 0 hwf le_rfl]
    · push_neg at he0
      cases hm : t.max_kwh with
      | none =>
        have h0 : (tieredLoop rest (e - e)).1 = 0 :=
          tieredLoop_fst_nonpos rest _ (by simp)
        simp only [tieredLoop, hm, if_neg (not_le.mpr he0), bracketSplitCost]
        rw [h0, max_eq_right he]
        ring
      | some m =>
        have hm0 : 0 ≤ m := hwf t (List.mem_cons_self t rest) m hm
        have key : max 0 (e - min e m) = max 0 (e - m) := by
          rcases le_total m e with h | h
          · rw [min_eq_right h]
          · rw [min_eq_left h, sub_self,
              max_eq_left (by linarith : e - m ≤ 0), max_self]
        have ihq : (tieredLoop rest (max 0 (e - m))).1
            = bracketSplitCost rest (max 0 (e - m)) :=
          ih _ (tiersWf_of_cons hwf) (le_max_left _ _)
        have brq : bracketSplitCost rest (max 0 (e - m))
            = bracketSplitCost rest (e - m) := by
          rcases le_total 0 (e - m) with h | h
          · rw [max_eq_right h]
          · rw [max_eq_left h,
              bracketSplitCost_nonpos rest _ (tiersWf_of_cons hwf) h,
              bracketSplitCost_nonpos rest 0 (tiersWf_of_cons hwf) le_rfl]
        simp only [tieredLoop, hm, if_neg (not_le.mpr he0), bracketSplitCost]
        rw [key, ihq, brq, max_eq_right he]
        ring

lemma bracketSplitCost_mono (ts : List TariffTier) :
    ∀ e1 e2 : ℚ, ratesNonneg ts → e1 ≤ e2 →
      bracketSplitCost ts e1 ≤ bracketSplitCost ts e2 := by
  induction ts with
  | nil => intro e1 e2 _ _; exact le_rfl
  | cons t rest ih =>
    intro e1 e2 hr h12
    have hrt : 0 ≤ t.rate_per_kwh := hr t (List.mem_cons_self t rest)
    cases hm : t.max_kwh with
    | none =>
      simp only [bracketSplitCost, hm]
      exact mul_le_mul_of_nonneg_left (max_le_max le_rfl h12) hrt
    | some m =>
      simp only [bracketSplitCost, hm]
      have h1 : t.rate_per_kwh * min (max 0 e1) m
          ≤ t.rate_per_kwh * min (max 0 e2) m :=
        mul_le_mul_of_nonneg_left (min_le_min (max_le_max le_rfl h12) le_rfl) hrt
      have h2 : bracketSplitCost rest (e1 - m) ≤ bracketSplitCost rest (e2 - m) :=
        ih _ _ (ratesNonneg_of_cons hr) (by linarith)
      linarith

lemma calculate_flat_tariff_total (e : ℚ) (cfg : RegionalBilling) :
    (calculate_flat_tariff e cfg).total_bill
      = (e * cfg.base_rate + cfg.fixed_charge) * (1 + cfg.tax_rate) := by
  simp only [calculate_flat_tariff]
  ring

lemma calculate_tiered_tariff_total (e : ℚ) (cfg : RegionalBilling)
    (ts : List TariffTier) (h : cfg.tiers = some ts) (hne : ts ≠ []) :
    (calculate_tiered_tariff e cfg).total_bill
      = ((tieredLoop ts e).1 + cfg.fixed_charge) * (1 + cfg.tax_rate) := by
  simp only [calculate_tiered_tariff, h, if_neg hne]
  ring

lemma calculate_tiered_tariff_energy_cost (e : ℚ) (cfg : RegionalBilling)
    (ts : List TariffTier) (h : cfg.tiers = some ts) (hne : ts ≠ []) :
    (calculate_tiered_tariff e cfg).energy_cost = (tieredLoop ts e).1 := by
  simp only [calculate_tiered_tariff, h, if_neg hne]

lemma flat_total_mono (cfg : RegionalBilling) (e1 e2 : ℚ)
    (hb : 0 ≤ cfg.base_rate) (htax : 0 ≤ 1 + cfg.tax_rate) (h12 : e1 ≤ e2) :
    (calculate_flat_tariff e1 cfg).total_bill
      ≤ (calculate_flat_tariff e2 cfg).total_bill := by
  rw [calculate_flat_tariff_total, calculate_flat_tariff_total]
  exact mul_le_mul_of_nonneg_right
    (add_le_add_right (mul_le_mul_of_nonneg_right h12 hb) _) htax

lemma tiered_total_mono (cfg : RegionalBilling) (ts : List TariffTier)
    (e1 e2 : ℚ) (h : cfg.tiers = some ts) (hne : ts ≠ [])
    (hwf : tiersWf ts) (hr : ratesNonneg ts) (htax : 0 ≤ 1 + cfg.tax_rate)
    (he1 : 0 ≤ e1) (h12 : e1 ≤ e2) :
    (calculate_tiered_tariff e1 cfg).total_bill
      ≤ (calculate_tiered_tariff e2 cfg).total_bill := by
  rw [calculate_tiered_tariff_total e1 cfg ts h hne,
    calculate_tiered_tariff_total e2 cfg ts h hne]
  apply mul_le_mul_of_nonneg_right (add_le_add_right _ _) htax
  rw [tieredLoop_fst_eq_bracketSplit ts e1 hwf he1,
    tieredLoop_fst_eq_bracketSplit ts e2 hwf (le_trans he1 h12)]
  exact bracketSplitCost_mono ts e1 e2 hr h12

lemma nigeria_tiersWf : tiersWf (nigeriaConfig.tiers.getD []) := by
  intro t ht m hm
  fin_cases ht <;> simp_all <;> linarith

lemma usa_tiersWf : tiersWf (usaConfig.tiers.getD []) := by
  intro t ht m hm
  fin_cases ht <;> simp_all <;> linarith

lemma india_tiersWf : tiersWf (indiaConfig.tiers.getD []) := by
  intro t ht m hm
  fin_cases ht <;> simp_all <;> linarith

lemma nigeria_ratesNonneg : ratesNonneg (nigeriaConfig.tiers.getD []) := by
  intro t ht
  fin_cases ht <;> norm_num

lemma usa_ratesNonneg : ratesNonneg (usaConfig.tiers.getD []) := by
  intro t ht
  fin_cases ht <;> norm_num

lemma india_ratesNonneg : ratesNonneg (indiaConfig.tiers.getD []) := by
  intro t ht
  fin_cases ht <;> norm_num

/-! ## Claims -/

/-- C1 is refuted: reading the tiers' `max_kwh` values as cumulative bracket
upper bounds (50/100/300 kWh for Nigeria) would price 150 kWh at
`50×30 + 50×50 + 50×68 = 7400` NGN of energy cost, but the code charges up
to `max_kwh` kWh *inside each tier* (`min(energy_remaining, max_kwh)`) and
returns 6500. -/
theorem tiered_upper_bound_reading_refuted :
    (calculate_tiered_tariff 150 nigeriaConfig).energy_cost = 6500 ∧
    (50 * 30 + 50 * 50 + 50 * 68 : ℚ) = 7400 ∧ (6500 : ℚ) ≠ 7400 := by
  refine ⟨?_, by norm_num, by norm_num⟩
  norm_num +decide [calculate_tiered_tariff, nigeriaConfig, tieredLoop,
    min_def, max_def]

/-- C1 (amended): for every non-negative consumption and each built-in
tiered configuration (Nigeria, USA, India), `calculate_tiered_tariff`
computes `energy_cost` by splitting the consumption into consecutive
brackets whose *widths* are the tiers' `max_kwh` values (so the Nigeria
brackets end at cumulative 50/150/450 kWh, the USA brackets at 300/900, the
India brackets at 100/300/600, the last tier unbounded), charging the energy
falling inside each bracket at that tier's `rate_per_kwh`. -/
theorem tiered_tariff_bracket_widths (e : ℚ) (he : 0 ≤ e) :
    (calculate_tiered_tariff e nigeriaConfig).energy_cost
      = bracketSplitCost (nigeriaConfig.tiers.getD []) e ∧
    (calculate_tiered_tariff e usaConfig).energy_cost
      = bracketSplitCost (usaConfig.tiers.getD []) e ∧
    (calculate_tiered_tariff e indiaConfig).energy_cost
      = bracketSplitCost (indiaConfig.tiers.getD []) e := by
  refine ⟨?_, ?_, ?_⟩
  · rw [calculate_tiered_tariff_energy_cost e _ _ rfl (by simp)]
    exact tieredLoop_fst_eq_bracketSplit _ e nigeria_tiersWf he
  · rw [calculate_tiered_tariff_energy_cost e _ _ rfl (by simp)]
    exact tieredLoop_fst_eq_bracketSplit _ e usa_tiersWf he
  · rw [calculate_tiered_tariff_energy_cost e _ _ rfl (by simp)]
    exact tieredLoop_fst_eq_bracketSplit _ e india_tiersWf he

/-- Witness for the amended C1 at 150 kWh. -/
theorem tiered_tariff_bracket_widths_witness :
    (calculate_tiered_tariff 150 nigeriaConfig).energy_cost
      = bracketSplitCost (nigeriaConfig.tiers.getD []) 150 ∧
    (calculate_tiered_tariff 150 usaConfig).energy_cost
      = bracketSplitCost (usaConfig.tiers.getD []) 150 ∧
    (calculate_tiered_tariff 150 indiaConfig).energy_cost
      = bracketSplitCost (indiaConfig.tiers.getD []) 150 :=
  tiered_tariff_bracket_widths 150 (by norm_num)

/-- C3 is refuted: `thermal_ode_model` clamps the correction factor below at
`0.1` (line 72), so at `E = 22, T = 0 °C, α = 2` it returns
`22 × 0.1 = 2.2`, not `E × (1 + α(T − 22)/22) = −22`. -/
theorem thermal_linear_formula_refuted :
    PhysicsEngine.thermal_ode_model 22 0 2 = Except.ok (11/5) ∧
    (22 : ℚ) * (1 + 2 * ((0 : ℚ) - 22) / 22) = -22 ∧
    (Except.ok (11/5 : ℚ) : Except String ℚ) ≠ Except.ok (-22 : ℚ) := by
  refine ⟨?_, by norm_num, by simp; norm_num⟩
  norm_num [PhysicsEngine.thermal_ode_model, PhysicsEngine.T_REF, max_def]

/-- C3 (amended): on the accepted range −50 °C to 60 °C,
`thermal_ode_model` returns `E × max(0.1, 1 + α(T − 22)/22)` — i.e. the
linear correction of the claim clamped below at 0.1 — and agrees with the
unclamped linear formula (which `energy_math.temperature_adjustment`
computes for all inputs) whenever that factor is at least 0.1. -/
theorem thermal_correction_clamped (E T α : ℚ) (h1 : -50 ≤ T) (h2 : T ≤ 60) :
    PhysicsEngine.thermal_ode_model E T α
      = Except.ok (E * max (1/10) (1 + α * ((T - 22) / 22))) ∧
    energy_math.temperature_adjustment E T α = E * (1 + α * (T - 22) / 22) ∧
    (1/10 ≤ 1 + α * ((T - 22) / 22) →
      PhysicsEngine.thermal_ode_model E T α
        = Except.ok (energy_math.temperature_adjustment E T α)) := by
  have hcond : ¬(T < -50 ∨ T > 60) := by
    push_neg
    exact ⟨h1, h2⟩
  refine ⟨?_, rfl, ?_⟩
  · simp [PhysicsEngine.thermal_ode_model, PhysicsEngine.T_REF, hcond]
  · intro hge
    simp only [PhysicsEngine.thermal_ode_model, PhysicsEngine.T_REF, hcond,
      if_false, energy_math.temperature_adjustment, max_eq_right hge,
      Except.ok.injEq]
    ring

/-- Witness for the amended C3 at `E = 100, T = 30 °C, α = 0.03`. -/
theorem thermal_correction_clamped_witness :
    PhysicsEngine.thermal_ode_model 100 30 (3/100)
      = Except.ok (100 * max (1/10) (1 + (3/100) * (((30 : ℚ) - 22) / 22))) ∧
    energy_math.temperature_adjustment 100 30 (3/100)
      = 100 * (1 + (3/100) * ((30 : ℚ) - 22) / 22) ∧
    (1/10 ≤ 1 + (3/100) * (((30 : ℚ) - 22) / 22) →
      PhysicsEngine.thermal_ode_model 100 30 (3/100)
        = Except.ok (energy_math.temperature_adjustment 100 30 (3/100))) :=
  thermal_correction_clamped 100 30 (3/100) (by norm_num) (by norm_num)

/-- C8: `calculate_bill` fails (raises `ValueError`) if and only if the
country is not one of the four configured ones or the consumption is
negative; every configured country's tariff type is recognised, so no other
failure is possible. -/
theorem calculate_bill_error_iff (e : ℚ) (country : String) (p : ℚ) :
    (∃ msg, calculate_bill e country p = Except.error msg) ↔
      (¬(country = "Nigeria" ∨ country = "USA" ∨ country = "UK"
          ∨ country = "India") ∨ e < 0) := by
  by_cases hN : country = "Nigeria"
  · subst hN
    by_cases he : e < 0
    · simp +decide [calculate_bill, regional_configs, he]
    · simp +decide [calculate_bill, regional_configs, nigeriaConfig, he]
  · by_cases hU : country = "USA"
    · subst hU
      by_cases he : e < 0
      · simp +decide [calculate_bill, regional_configs, he]
      · simp +decide [calculate_bill, regional_configs, usaConfig, he]
    · by_cases hK : country = "UK"
      · subst hK
        by_cases he : e < 0
        · simp +decide [calculate_bill, regional_configs, he]
        · simp +decide [calculate_bill, regional_configs, ukConfig, he]
      · by_cases hI : country = "India"
        · subst hI
          by_cases he : e < 0
          · simp +decide [calculate_bill, regional_configs, he]
          · simp +decide [calculate_bill, regional_configs, indiaConfig, he]
        · simp [calculate_bill, regional_configs, hN, hU, hK, hI]

/-- C9: under every built-in configuration the total bill is monotone
non-decreasing in consumption: for `0 ≤ e1 ≤ e2`, whenever `calculate_bill`
succeeds on both, the total at `e1` is at most the total at `e2`. -/
theorem calculate_bill_total_monotone (country : String) (p e1 e2 : ℚ)
    (b1 b2 : BillDetails) (he1 : 0 ≤ e1) (h12 : e1 ≤ e2)
    (h1 : calculate_bill e1 country p = Except.ok b1)
    (h2 : calculate_bill e2 country p = Except.ok b2) :
    b1.total_bill ≤ b2.total_bill := by
  have he2 : 0 ≤ e2 := le_trans he1 h12
  have hne1 : ¬ e1 < 0 := not_lt.mpr he1
  have hne2 : ¬ e2 < 0 := not_lt.mpr he2
  by_cases hN : country = "Nigeria"
  · subst hN
    simp +decide [calculate_bill, regional_configs, hne1, hne2] at h1 h2
    rw [← h1, ← h2]
    exact tiered_total_mono _ _ e1 e2 rfl (by simp) nigeria_tiersWf
      nigeria_ratesNonneg (by norm_num [nigeriaConfig]) he1 h12
  · by_cases hU : country = "USA"
    · subst hU
      simp +decide [calculate_bill, regional_configs, hne1, hne2] at h1 h2
      rw [← h1, ← h2]
      exact tiered_total_mono _ _ e1 e2 rfl (by simp) usa_tiersWf
        usa_ratesNonneg (by norm_num [usaConfig]) he1 h12
    · by_cases hK : country = "UK"
      · subst hK
        simp +decide [calculate_bill, regional_configs, hne1, hne2] at h1 h2
        rw [← h1, ← h2]
        exact flat_total_mono _ e1 e2 (by norm_num [ukConfig])
          (by norm_num [ukConfig]) h12
      · by_cases hI : country = "India"
        · subst hI
          simp +decide [calculate_bill, regional_configs, hne1, hne2] at h1 h2
          rw [← h1, ← h2]
          exact tiered_total_mono _ _ e1 e2 rfl (by simp) india_tiersWf
            india_ratesNonneg (by norm_num [indiaConfig]) he1 h12
        · simp [calculate_bill, regional_configs, hN, hU, hK, hI] at h1

/-- Witness for C9: Nigeria, 100 kWh vs 200 kWh. -/
theorem calculate_bill_total_monotone_witness :
    (calculate_tiered_tariff 100 nigeriaConfig).total_bill
      ≤ (calculate_tiered_tariff 200 nigeriaConfig).total_bill :=
  calculate_bill_total_monotone "Nigeria" 0 100 200
    (calculate_tiered_tariff 100 nigeriaConfig)
    (calculate_tiered_tariff 200 nigeriaConfig)
    (by norm_num) (by norm_num)
    (by norm_num +decide [calculate_bill, regional_configs, nigeriaConfig])
    (by norm_num +decide [calculate_bill, regional_configs, nigeriaConfig])

/-- C6: the forecaster operates on at most twelve synthetic points:
`generate_synthetic_history` produces exactly `months` rows,
`comprehensive_forecast` builds its history with `months = 12`,
`sarima_forecast` rejects histories with fewer than 6 rows (and only those),
and the trend it reports on success is the degree-1 least-squares slope of
the energy values. -/
theorem forecasting_engine_scope :
    (∀ (base : ℚ) (months : ℕ) (monthOf : ℕ → ℕ) (rand : ℕ → ℚ),
      (ForecastingEngine.generate_synthetic_history base months monthOf
        rand).length = months) ∧
    (∀ (e : ℚ) (monthOf : ℕ → ℕ) (rand : ℕ → ℚ),
      (ForecastingEngine.comprehensive_history e monthOf rand).length = 12) ∧
    (∀ (data : List ForecastingEngine.HistoryRow) (fm : ℕ)
        (futureMonth : ℕ → ℕ),
      (∃ msg, ForecastingEngine.sarima_forecast data fm futureMonth
          = Except.error msg) ↔ data.length < 6) ∧
    (∀ (data : List ForecastingEngine.HistoryRow) (fm : ℕ)
        (futureMonth : ℕ → ℕ) (r : ForecastingEngine.SarimaResult),
      ForecastingEngine.sarima_forecast data fm futureMonth = Except.ok r →
        r.trend_coefficient
          = ForecastingEngine.polyfit1
              (data.map (fun row => row.energy_kwh))) := by
  refine ⟨?_, ?_, ?_, ?_⟩
  · intro base months monthOf rand
    simp [ForecastingEngine.generate_synthetic_history]
  · intro e monthOf rand
    simp [ForecastingEngine.comprehensive_history,
      ForecastingEngine.generate_synthetic_history]
  · intro data fm futureMonth
    by_cases h : data.length < 6
    · simp [ForecastingEngine.sarima_forecast, h]
    · simp [ForecastingEngine.sarima_forecast, h]
  · intro data fm futureMonth r hok
    by_cases h : data.length < 6
    · simp [ForecastingEngine.sarima_forecast, h] at hok
    · simp [ForecastingEngine.sarima_forecast, h] at hok
      rw [← hok]

/-- Witness for C6: a 12-month synthetic history has exactly 12 rows. -/
theorem forecasting_engine_scope_witness :
    (ForecastingEngine.generate_synthetic_history 250 12 (fun _ => 1)
      (fun _ => 1)).length = 12 :=
  forecasting_engine_scope.1 250 12 (fun _ => 1) (fun _ => 1)

/-- C2: for every consumption and every billing configuration,
`calculate_flat_tariff` charges the single per-unit rate on all consumption:
`energy_cost = e × base_rate`, `subtotal = energy_cost + fixed_charge`,
`tax_amount = subtotal × tax_rate`, `total_bill = subtotal + tax_amount`. -/
theorem flat_tariff_formula (e : ℚ) (cfg : RegionalBilling) :
    (calculate_flat_tariff e cfg).energy_cost = e * cfg.base_rate ∧
    (calculate_flat_tariff e cfg).subtotal
      = (calculate_flat_tariff e cfg).energy_cost + cfg.fixed_charge ∧
    (calculate_flat_tariff e cfg).tax_amount
      = (calculate_flat_tariff e cfg).subtotal * cfg.tax_rate ∧
    (calculate_flat_tariff e cfg).total_bill
      = (calculate_flat_tariff e cfg).subtotal + (calculate_flat_tariff e cfg).tax_amount ∧
    ukConfig.tariff_type = "flat" :=
  ⟨rfl, rfl, rfl, rfl, rfl⟩

/-- C4: `calculate_time_of_use_tariff` charges the peak portion `e × p` at
`base_rate × peak_multiplier` and the off-peak portion `e × (1 − p)` at
`base_rate`, with `peak_energy + off_peak_energy = e` and
`energy_cost = peak_cost + off_peak_cost`. -/
theorem time_of_use_tariff_formula (e p : ℚ) (cfg : RegionalBilling) :
    (calculate_time_of_use_tariff e p cfg).peak_energy = e * p ∧
    (calculate_time_of_use_tariff e p cfg).off_peak_energy = e * (1 - p) ∧
    (calculate_time_of_use_tariff e p cfg).peak_cost
      = (e * p) * (cfg.base_rate * cfg.peak_multiplier) ∧
    (calculate_time_of_use_tariff e p cfg).off_peak_cost
      = (e * (1 - p)) * cfg.base_rate ∧
    (calculate_time_of_use_tariff e p cfg).peak_energy
      + (calculate_time_of_use_tariff e p cfg).off_peak_energy = e ∧
    (calculate_time_of_use_tariff e p cfg).energy_cost
      = (calculate_time_of_use_tariff e p cfg).peak_cost
        + (calculate_time_of_use_tariff e p cfg).off_peak_cost := by
  refine ⟨rfl, rfl, rfl, rfl, ?_, rfl⟩
  show e * p + e * (1 - p) = e
  ring

/-- C5: `ml_correction_layer` returns the base forecast unchanged when the
model is untrained, and otherwise multiplies it by a correction factor that
lies in `[0.5, 2.0]` regardless of what the underlying regression model
predicts. -/
theorem ml_correction_layer_bounded (scaler : List ℚ → List ℚ)
    (predict : List ℚ → ℚ) (b : ℚ) (f : ForecastingEngine.MlFeatures) :
    ForecastingEngine.ml_correction_layer ⟨false, scaler, predict⟩ b f = b ∧
    ∃ c : ℚ, 1/2 ≤ c ∧ c ≤ 2 ∧
      ForecastingEngine.ml_correction_layer ⟨true, scaler, predict⟩ b f = b * c := by
  constructor
  · rfl
  · exact ⟨_, le_min (by norm_num) (le_max_left _ _), min_le_left _ _, rfl⟩

/-- C10: the three independently implemented device-energy formulas agree on
the domain where `device_energy_basic` does not raise: all three return
`(power × hours × days × quantity) / 1000`. -/
theorem device_energy_implementations_agree (p h d n : ℚ)
    (hp : 0 < p) (hh : 0 ≤ h) (hd : 0 < d) (hn : 0 < n) :
    PhysicsEngine.device_energy_basic p h d n
      = Except.ok ((p * h * d * n) / 1000) ∧
    energy_math.device_energy p h d n = (p * h * d * n) / 1000 ∧
    calculate_energy p h d n = (p * h * d * n) / 1000 := by
  refine ⟨?_, rfl, rfl⟩
  have hcond : ¬(p ≤ 0 ∨ h < 0 ∨ d ≤ 0 ∨ n ≤ 0) := by
    push_neg
    exact ⟨hp, hh, hd, hn⟩
  simp [PhysicsEngine.device_energy_basic, hcond]

/-- Witness for C10 at `power = 60 W, 5 h/day, 30 days, 2 devices`
(18 kWh). -/
theorem device_energy_implementations_agree_witness :
    PhysicsEngine.device_energy_basic 60 5 30 2
      = Except.ok ((60 * 5 * 30 * 2 : ℚ) / 1000) ∧
    energy_math.device_energy 60 5 30 2 = (60 * 5 * 30 * 2 : ℚ) / 1000 ∧
    calculate_energy 60 5 30 2 = (60 * 5 * 30 * 2 : ℚ) / 1000 :=
  device_energy_implementations_agree 60 5 30 2 (by norm_num) (by norm_num)
    (by norm_num) (by norm_num)

/-- C7: every built-in regional configuration either has no tier table (flat
tariffs) or a tier table of at most 4 entries.  `regional_configs` is a fixed
table in this functional model: every `BillingEngine` operation reads it and
none rebinds it, so the bound is an invariant. -/
theorem builtin_tier_tables_small (country : String) (cfg : RegionalBilling)
    (h : regional_configs country = some cfg) :
    cfg.tiers = none ∨ ∃ ts, cfg.tiers = some ts ∧ ts.length ≤ 4 := by
  unfold regional_configs at h
  split_ifs at h
  · injection h with h2; subst h2; exact Or.inr ⟨_, rfl, by norm_num⟩
  · injection h with h2; subst h2; exact Or.inr ⟨_, rfl, by norm_num⟩
  · injection h with h2; subst h2; exact Or.inl rfl
  · injection h with h2; subst h2; exact Or.inr ⟨_, rfl, by norm_num⟩

/-- Witness for C7 at the Nigeria configuration. -/
theorem builtin_tier_tables_small_witness :
    nigeriaConfig.tiers = none
      ∨ ∃ ts, nigeriaConfig.tiers = some ts ∧ ts.length ≤ 4 :=
  builtin_tier_tables_small "Nigeria" nigeriaConfig (by rfl)

end AISense
